import Mathlib

/-
Verification of the selection/navigation engine of kls, a terminal UI for
browsing kubernetes resources in three filterable panes (menus).

The definitions below are a shallow embedding of src/kls.py (the canonical
script variant; src/new_kls.py is an auxiliary rewrite, embedded where a claim
needs it).  Pure state is modelled explicitly:

  * a `Menu` keeps the fields of the Python `Menu` class that carry
    selection/filter state (`state`, `rows`, `selected_row`, `filter`,
    `rows_number`); the purely geometric fields (`name`, `begin_x`, `win`)
    only feed the curses drawing calls and are omitted;
  * Python strings are Lean `String`s, Python's `sub in s` substring test,
    `s[:-1]`, `s[a:b]` and list indexing (including negative indices) are
    modelled by `str_in`, `py_drop_last`, `py_slice` and `py_index`;
  * `subprocess.check_output ("kubectl get {api} -n {ns} ...")` is an oracle
    parameter `String → String → List String`;
  * a Python `IndexError` is `none` of an `Option` result;
  * `subprocess.call` of an action command is modelled by returning the
    command string that would be executed (`some (some cmd)`), a silent
    `return` before the call by `some none`;
  * `curses` drawing calls have no effect on menu state and are dropped;
    the rows that `draw_rows` would paint are exposed as `visible_rows`.

Python's `str.isalpha` is Unicode-alphabetic; keys are modelled as single
characters and the guard uses `Char.isAlpha`, which agrees on ASCII input.
-/

/-- Menu state constant from kls.py line 18: selected (focused), search off. -/
def SELECTED_WITHOUT_SEARCH : Nat := 1

/-- Menu state constant from kls.py line 19: selected (focused), search on. -/
def SELECTED_WITH_SEARCH : Nat := 2

/-- Menu state constant from kls.py line 20: not selected, search off. -/
def NOT_SELECTED_WITHOUT_SEARCH : Nat := 3

/-- Menu state constant from kls.py line 21: not selected, search on. -/
def NOT_SELECTED_WITH_SEARCH : Nat := 4

/-- The selection/filter state of the Python `Menu` class (kls.py lines 24-33).
`rows_number` is the viewport height (`curses.LINES - 10`); `selected_row` is
an integer because Python's `%` arithmetic acts on ints. -/
structure Menu where
  state : Nat
  rows : List String
  selected_row : Int
  filter : String
  rows_number : Nat
deriving DecidableEq, Repr

/-- Contiguous-substring test on character lists: `sub` occurs inside `s`. -/
def str_in_chars (sub : List Char) : List Char → Bool
  | [] => sub.isEmpty
  | c :: t => sub.isPrefixOf (c :: t) || str_in_chars sub t

/-- Python's substring test `sub in s`. -/
def str_in (sub s : String) : Bool :=
  str_in_chars sub.data s.data

/-- Python's `s.startswith (p)`. -/
def starts_with (s p : String) : Bool :=
  p.data.isPrefixOf s.data

/-- Python's `s[:-1]` (also returns `""` on `""`, matching
`menu.filter[:-1] if menu.filter else ""` in kls.py line 161). -/
def py_drop_last (s : String) : String :=
  ⟨s.data.dropLast⟩

/-- Python list indexing `l[i]`, including the negative-index wraparound;
`none` is an `IndexError`. -/
def py_index (l : List String) (i : Int) : Option String :=
  if 0 ≤ i then l[i.toNat]?
  else if 0 ≤ i + (l.length : Int) then l[(i + (l.length : Int)).toNat]?
  else none

/-- Python slicing `l[a:b]` for `0 ≤ a ≤ b` (the only range kls.py uses,
draw_rows line 76); out-of-range bounds clamp exactly as in Python. -/
def py_slice (l : List String) (a b : Int) : List String :=
  (l.drop a.toNat).take (b - a).toNat

/-- `list (filter (lambda x: (menu.filter in x), menu.rows))`, the filtered
view recomputed throughout kls.py (lines 52-53, 71, 109, 111-112, 144-145),
identical to `Menu.filter_rows` in new_kls.py lines 22-23. -/
def filter_rows (m : Menu) : List String :=
  m.rows.filter (fun x => str_in m.filter x)

/-- The spec's `selectedRow ()`: the element of the filtered view at the
cursor index, `none` when there is no such element. -/
def menu_selection (m : Menu) : Option String :=
  py_index (filter_rows m) m.selected_row

/-- The three menus of kls.py line 48: `menus = [menu1, menu2, menu3]`
(group = namespaces, type = api resources, instance = resources). -/
structure KState where
  m1 : Menu
  m2 : Menu
  m3 : Menu
deriving DecidableEq, Repr

/-- `menus[i]`. -/
def KState.menuAt (s : KState) (i : Fin 3) : Menu :=
  if i.val = 0 then s.m1 else if i.val = 1 then s.m2 else s.m3

/-- Replace `menus[i]` (Python mutates the menu object in place). -/
def KState.setMenuAt (s : KState) (i : Fin 3) (m : Menu) : KState :=
  if i.val = 0 then { s with m1 := m }
  else if i.val = 1 then { s with m2 := m }
  else { s with m3 := m }

/-- Horizontal direction (kls.py line 134: `increment = {"right": 1, "left": -1}`). -/
inductive HDir where
  | right
  | left
deriving DecidableEq, Repr

/-- `increment[direction]` for horizontal navigation. -/
def h_increment : HDir → Int
  | .right => 1
  | .left => -1

/-- Vertical direction (kls.py line 147: `increment = {"down": 1, "up": -1}`). -/
inductive VDir where
  | down
  | up
deriving DecidableEq, Repr

/-- `increment[direction]` for vertical navigation. -/
def v_increment : VDir → Int
  | .down => 1
  | .up => -1

/-- The four action (function) keys F1-F4. -/
inductive FKey where
  | f1
  | f2
  | f3
  | f4
deriving DecidableEq, Repr

/-- A keyboard event as classified by catch_input (kls.py lines 177-191).
Escape (`"\x1b"`) and backspace (`"KEY_BACKSPACE"`) are their own events;
`char c` is any remaining single-character key such as letters, `-`, `/`
and `q`. -/
inductive Key where
  | tab
  | btab
  | right
  | left
  | down
  | up
  | fkey (fk : FKey)
  | esc
  | backspace
  | char (c : Char)
deriving DecidableEq, Repr

/-- `menus[(menu_index[menu] + increment[direction]) % 3]` (kls.py line 136). -/
def next_menu_index (f : Fin 3) (inc : Int) : Fin 3 :=
  ⟨(((f.val : Int) + inc) % 3).toNat, by omega⟩

/-- kls.py lines 133-140: unfocus the current menu, focus the circularly
adjacent one; each of the two gets its `WITH_SEARCH` state variant exactly
when its filter is non-empty.  The drawing calls are dropped. -/
def navigate_horizontally (d : HDir) (f : Fin 3) (s : KState) : KState :=
  let m := s.menuAt f
  let nf := next_menu_index f (h_increment d)
  let s1 := s.setMenuAt f
    { m with state := if m.filter = "" then NOT_SELECTED_WITHOUT_SEARCH else NOT_SELECTED_WITH_SEARCH }
  let nm := s1.menuAt nf
  s1.setMenuAt nf
    { nm with state := if nm.filter = "" then SELECTED_WITHOUT_SEARCH else SELECTED_WITH_SEARCH }

/-- kls.py lines 143-150: move the cursor with wraparound over the filtered
rows; a no-op when there are no filtered rows or exactly one. -/
def navigate_vertically (d : VDir) (f : Fin 3) (s : KState) : KState :=
  let m := s.menuAt f
  let fr := filter_rows m
  if fr = [] ∨ fr.length = 1 then s
  else s.setMenuAt f
    { m with selected_row := (m.selected_row + v_increment d) % (fr.length : Int) }

/-- kls.py lines 153-166: the search-mode key handler of the focused menu.
Escape clears the filter and the cursor and leaves search mode; backspace
demotes the state only when the filter was already empty and drops the last
filter character; an alphabetic or `-` key is appended to the filter and the
cursor is reset; every other key falls through all branches unchanged. -/
def handle_selected_with_search_state (k : Key) (m : Menu) : Menu :=
  match k with
  | .esc =>
      { m with filter := "", selected_row := 0, state := SELECTED_WITHOUT_SEARCH }
  | .backspace =>
      { m with state := if m.filter = "" then SELECTED_WITHOUT_SEARCH else m.state,
               filter := py_drop_last m.filter }
  | .char c =>
      if c.isAlpha || c = '-' then
        { m with filter := m.filter.push c, selected_row := 0 }
      else m
  | _ => m

/-- kls.py lines 169-174: the browse-mode key handler of the focused menu.
`/` enters search mode; `q` reports an interrupt (second component `true`). -/
def handle_selected_without_search_state (k : Key) (m : Menu) : Menu × Bool :=
  match k with
  | .char c =>
      if c = '/' then ({ m with state := SELECTED_WITH_SEARCH }, false)
      else if c = 'q' then (m, true)
      else (m, false)
  | _ => (m, false)

/-- kls.py lines 108-130: resolve the current three-level selection and build
the action command.  `some none` is a silent early `return` (no process call,
no display suspension); `some (some cmd)` means `cmd` is handed to
`subprocess.call`; `none` is an uncaught `IndexError`.  The function reads
`menu3.rows[menu3.selected_row]` (line 115), not the filtered rows. -/
def run_command (fk : FKey) (s : KState) : Option (Option String) :=
  let menu3_filtered_rows := filter_rows s.m3
  if menu3_filtered_rows = [] then some none
  else if starts_with (menu3_filtered_rows.headD "") "No resources" then some none
  else do
    let ns ← py_index (filter_rows s.m1) s.m1.selected_row
    let api ← py_index (filter_rows s.m2) s.m2.selected_row
    let res ← py_index s.m3.rows s.m3.selected_row
    match fk with
    | .f1 => some (some ("kubectl -n " ++ ns ++ " get " ++ api ++ " " ++ res ++
        " -o yaml | batcat -l yaml --paging always --style numbers"))
    | .f2 => some (some ("kubectl -n " ++ ns ++ " describe " ++ api ++ " " ++ res ++
        " | batcat -l yaml --paging always --style numbers"))
    | .f3 => some (some ("kubectl edit " ++ api ++ " -n " ++ ns ++ " " ++ res))
    | .f4 =>
        if api = "pods" then
          some (some ("kubectl -n " ++ ns ++ " logs " ++ res ++
            " | batcat -l log --paging always --style numbers"))
        else some none

/-- kls.py lines 51-61: re-derive menu3 from the current menu1/menu2
selections.  `oracle ns api` stands for the `kubectl get {api} -n {ns}` query.
The placeholder rows are installed exactly as in the source and the cursor is
reset to 0; `none` is the `IndexError` of an out-of-range governing cursor. -/
def update_menu3_object (oracle : String → String → List String)
    (m1 m2 m3 : Menu) : Option Menu :=
  let menu1_filtered_rows := filter_rows m1
  let menu2_filtered_rows := filter_rows m2
  if menu1_filtered_rows = [] ∨ menu2_filtered_rows = [] then
    some { m3 with rows := ["No resources matched criteria."], selected_row := 0 }
  else
    match py_index menu1_filtered_rows m1.selected_row,
          py_index menu2_filtered_rows m2.selected_row with
    | some ns, some api =>
        let q := oracle ns api
        some { m3 with
          rows := if q = [] then ["No resources found in " ++ ns ++ " namespace."] else q,
          selected_row := 0 }
    | _, _ => none

/-- The key list of kls.py line 189: keys after which menu3 is not refreshed. -/
def key_in_excluded (k : Key) : Bool :=
  match k with
  | .right | .left | .tab | .btab => true
  | .char c => c = '/'
  | _ => false

/-- The key-dispatch chain of catch_input (kls.py lines 179-188), before the
trailing menu3 refresh: horizontal and vertical navigation, the four action
keys, and the two state-dependent handlers of the focused menu.  The second
component is `true` when `q` interrupted the main loop; `none` is an uncaught
`IndexError` from run_command. -/
def after_key (k : Key) (f : Fin 3) (s : KState) : Option (KState × Bool) :=
  let m := s.menuAt f
  match k with
  | .tab => some (navigate_horizontally .right f s, false)
  | .right => some (navigate_horizontally .right f s, false)
  | .btab => some (navigate_horizontally .left f s, false)
  | .left => some (navigate_horizontally .left f s, false)
  | .down => some (navigate_vertically .down f s, false)
  | .up => some (navigate_vertically .up f s, false)
  | .fkey fk => (run_command fk s).map (fun _ => (s, false))
  | _ =>
      if m.state = SELECTED_WITH_SEARCH then
        some (s.setMenuAt f (handle_selected_with_search_state k m), false)
      else if m.state = SELECTED_WITHOUT_SEARCH then
        let r := handle_selected_without_search_state k m
        some (s.setMenuAt f r.1, r.2)
      else some (s, false)

/-- kls.py lines 177-191: dispatch one key pressed while `menus[f]` is the
focused menu.  On an interrupt (`q` in browse mode) catch_input returns
before the menu3 refresh (source lines 186-188); otherwise, if the focused
menu is not menu3 and the key is not horizontal navigation or `/`
(source line 189), menu3 is re-derived via update_menu3_object.
`none` is an uncaught `IndexError`. -/
def catch_input (oracle : String → String → List String) (k : Key) (f : Fin 3)
    (s : KState) : Option (KState × Bool) :=
  match after_key k f s with
  | none => none
  | some step =>
    if step.2 = true then some (step.1, true)
    else if f.val ≠ 2 ∧ key_in_excluded k = false then
      match update_menu3_object oracle step.1.m1 step.1.m2 step.1.m3 with
      | some m3n => some ({ step.1 with m3 := m3n }, false)
      | none => none
    else some (step.1, false)

/-- kls.py line 74: the index into the filtered rows of the first row that
draw_rows paints. -/
def first_row_index (m : Menu) : Int :=
  if m.selected_row < (m.rows_number : Int) then 0
  else m.selected_row - (m.rows_number : Int) + 1

/-- kls.py lines 74-76: the window of filtered rows that draw_rows paints,
`filtered_rows[first_row_index:last_row_index]`. -/
def visible_rows (m : Menu) : List String :=
  let fr := filter_rows m
  let first := first_row_index m
  let last := first + (m.rows_number : Int)
  py_slice fr first last

/-- new_kls.py lines 25-29: `Menu.get_selected_row`, clamping the cursor into
the filtered view. -/
def new_kls_get_selected_row (m : Menu) : Int :=
  if filter_rows m = [] then 0
  else min m.selected_row ((filter_rows m).length - 1)

/-- new_kls.py line 109: `menus[2].filter_rows()[menus[2].get_selected_row()]`,
the instance resolved from the filtered view. -/
def new_kls_resource (m : Menu) : Option String :=
  py_index (filter_rows m) (new_kls_get_selected_row m)

/-- Modelled from the spec: `CircularList.shift` sets
`index = (index + delta) mod length` with true (never negative) modulo.  The
`CircularList` class lives in the `kls` script variant imported by test.py and
tests.py, which is not under src/; the formula coincides with the cursor
update of kls.py line 148 for `delta = ±1`. -/
def circular_shift (n : Nat) (d : Int) (i : Int) : Int :=
  (i + d) % (n : Int)

/-- The filter-alphabet invariant of a single filter string: every character
was admitted by the guard of kls.py line 163. -/
def filter_ok (f : String) : Prop :=
  ∀ c ∈ f.data, c.isAlpha = true ∨ c = '-'

instance (f : String) : Decidable (filter_ok f) := by
  unfold filter_ok; infer_instance

/-- The filter-alphabet invariant over all three menus. -/
def state_filters_ok (s : KState) : Prop :=
  filter_ok s.m1.filter ∧ filter_ok s.m2.filter ∧ filter_ok s.m3.filter

instance (s : KState) : Decidable (state_filters_ok s) := by
  unfold state_filters_ok; infer_instance

/- Helper lemmas about the state accessors and the navigation steps. -/

lemma setMenuAt_m1 (s : KState) (f : Fin 3) (m : Menu) :
    (s.setMenuAt f m).m1 = if f.val = 0 then m else s.m1 := by
  rcases f with ⟨v, hv⟩
  interval_cases v <;> simp [KState.setMenuAt]

lemma setMenuAt_m2 (s : KState) (f : Fin 3) (m : Menu) :
    (s.setMenuAt f m).m2 = if f.val = 1 then m else s.m2 := by
  rcases f with ⟨v, hv⟩
  interval_cases v <;> simp [KState.setMenuAt]

lemma setMenuAt_m3 (s : KState) (f : Fin 3) (m : Menu) :
    (s.setMenuAt f m).m3 = if f.val = 2 then m else s.m3 := by
  rcases f with ⟨v, hv⟩
  interval_cases v <;> simp [KState.setMenuAt]

lemma setMenuAt_self (s : KState) (f : Fin 3) : s.setMenuAt f (s.menuAt f) = s := by
  rcases f with ⟨v, hv⟩
  interval_cases v <;> simp [KState.setMenuAt, KState.menuAt]

/-- Horizontal navigation reassigns only the `state` fields: every menu keeps
its rows, its filter and its cursor. -/
lemma navigate_horizontally_keeps (d : HDir) (f : Fin 3) (s : KState) :
    (navigate_horizontally d f s).m1.rows = s.m1.rows ∧
    (navigate_horizontally d f s).m1.filter = s.m1.filter ∧
    (navigate_horizontally d f s).m1.selected_row = s.m1.selected_row ∧
    (navigate_horizontally d f s).m2.rows = s.m2.rows ∧
    (navigate_horizontally d f s).m2.filter = s.m2.filter ∧
    (navigate_horizontally d f s).m2.selected_row = s.m2.selected_row ∧
    (navigate_horizontally d f s).m3.rows = s.m3.rows ∧
    (navigate_horizontally d f s).m3.filter = s.m3.filter ∧
    (navigate_horizontally d f s).m3.selected_row = s.m3.selected_row := by
  rcases f with ⟨v, hv⟩
  interval_cases v <;> cases d <;>
    simp [navigate_horizontally, next_menu_index, h_increment,
      KState.setMenuAt, KState.menuAt]

/-- Vertical navigation either does nothing or moves the focused cursor by
the wraparound formula. -/
lemma navigate_vertically_eq (d : VDir) (f : Fin 3) (s : KState) :
    navigate_vertically d f s = s ∨
    navigate_vertically d f s = s.setMenuAt f
      { s.menuAt f with selected_row :=
          ((s.menuAt f).selected_row + v_increment d) % ((filter_rows (s.menuAt f)).length : Int) } := by
  simp only [navigate_vertically]
  split
  · exact Or.inl rfl
  · exact Or.inr rfl

/-- Vertical navigation touches only the focused menu, and there only the
cursor. -/
lemma navigate_vertically_keeps (d : VDir) (f : Fin 3) (s : KState) :
    (navigate_vertically d f s).m1.rows = s.m1.rows ∧
    (navigate_vertically d f s).m1.filter = s.m1.filter ∧
    (navigate_vertically d f s).m2.rows = s.m2.rows ∧
    (navigate_vertically d f s).m2.filter = s.m2.filter ∧
    (navigate_vertically d f s).m3.rows = s.m3.rows ∧
    (navigate_vertically d f s).m3.filter = s.m3.filter ∧
    (f.val ≠ 0 → (navigate_vertically d f s).m1 = s.m1) ∧
    (f.val ≠ 1 → (navigate_vertically d f s).m2 = s.m2) ∧
    (f.val ≠ 2 → (navigate_vertically d f s).m3 = s.m3) := by
  rcases navigate_vertically_eq d f s with h | h <;> rw [h]
  · simp
  · rcases f with ⟨v, hv⟩
    interval_cases v <;> simp [KState.setMenuAt, KState.menuAt]

/-- The only interrupting arm of after_key (`q` in browse mode) leaves the
whole state unchanged. -/
lemma after_key_interrupt (k : Key) (f : Fin 3) (s : KState) (st : KState × Bool)
    (h : after_key k f s = some st) (hi : st.2 = true) : st.1 = s := by
  cases k <;> simp [after_key] at h
  case tab | right | btab | left | down | up =>
    rw [← h] at hi; simp at hi
  case fkey fk =>
    rcases hr : run_command fk s with _ | w <;> rw [hr] at h <;> simp at h
    rw [← h] at hi; simp at hi
  case esc | backspace =>
    split at h <;> [skip; split at h] <;> simp only [Option.some.injEq] at h <;>
      rw [← h] at hi <;> simp [handle_selected_without_search_state] at hi
  case char c =>
    split at h
    · simp only [Option.some.injEq] at h
      rw [← h] at hi; simp at hi
    · split at h <;> simp only [Option.some.injEq] at h
      · by_cases hc1 : c = '/'
        · rw [← h] at hi; simp [handle_selected_without_search_state, hc1] at hi
        · by_cases hc2 : c = 'q'
          · rw [← h]; simp [handle_selected_without_search_state, hc1, hc2, setMenuAt_self]
          · rw [← h] at hi; simp [handle_selected_without_search_state, hc1, hc2] at hi
      · rw [← h] at hi; simp at hi

/-- For keys outside the exclusion list of kls.py line 189, the dispatch chain
never touches menu3 while a different menu is focused. -/
lemma after_key_m3 (k : Key) (f : Fin 3) (s : KState) (st : KState × Bool)
    (hk : key_in_excluded k = false) (hf : f.val ≠ 2)
    (h : after_key k f s = some st) : st.1.m3 = s.m3 := by
  cases k <;> simp [after_key] at h
  case tab | right | btab | left => simp [key_in_excluded] at hk
  case down | up =>
    rw [← h]
    exact (navigate_vertically_keeps _ f s).2.2.2.2.2.2.2.2 hf
  case fkey fk =>
    rcases hr : run_command fk s with _ | w <;> rw [hr] at h <;> simp at h
    rw [← h]
  case esc | backspace | char =>
    split at h <;> [skip; split at h] <;> simp only [Option.some.injEq] at h <;>
      rw [← h] <;> simp [setMenuAt_m3, hf]

/-- With menu3 focused, the dispatch chain keeps the filters and cursors of
menu1 and menu2. -/
lemma after_key_f2_keeps (k : Key) (f : Fin 3) (s : KState) (st : KState × Bool)
    (hf : f.val = 2) (h : after_key k f s = some st) :
    st.1.m1.filter = s.m1.filter ∧ st.1.m1.selected_row = s.m1.selected_row ∧
    st.1.m2.filter = s.m2.filter ∧ st.1.m2.selected_row = s.m2.selected_row := by
  cases k <;> simp [after_key] at h
  case tab | right | btab | left =>
    rw [← h]
    obtain ⟨_, h2, h3, _, h5, h6, _⟩ := navigate_horizontally_keeps _ f s
    exact ⟨h2, h3, h5, h6⟩
  case down | up =>
    rw [← h]
    obtain ⟨_, _, _, _, _, _, k1, k2, _⟩ := navigate_vertically_keeps _ f s
    rw [k1 (by omega), k2 (by omega)]
    exact ⟨rfl, rfl, rfl, rfl⟩
  case fkey fk =>
    rcases hr : run_command fk s with _ | w <;> rw [hr] at h <;> simp at h
    rw [← h]
    exact ⟨rfl, rfl, rfl, rfl⟩
  case esc | backspace | char =>
    split at h <;> [skip; split at h] <;> simp only [Option.some.injEq] at h <;>
      rw [← h] <;> simp [setMenuAt_m1, setMenuAt_m2, hf]

/-- For the excluded keys (horizontal navigation and `/`), the dispatch chain
keeps every filter and the cursors of menu1 and menu2. -/
lemma after_key_excluded_keeps (k : Key) (f : Fin 3) (s : KState) (st : KState × Bool)
    (hk : key_in_excluded k = true) (h : after_key k f s = some st) :
    st.1.m1.filter = s.m1.filter ∧ st.1.m1.selected_row = s.m1.selected_row ∧
    st.1.m2.filter = s.m2.filter ∧ st.1.m2.selected_row = s.m2.selected_row := by
  cases k <;> simp [key_in_excluded] at hk
  case tab | right | btab | left =>
    simp [after_key] at h
    rw [← h]
    obtain ⟨_, h2, h3, _, h5, h6, _⟩ := navigate_horizontally_keeps _ f s
    exact ⟨h2, h3, h5, h6⟩
  case char =>
    subst hk
    simp [after_key] at h
    split at h <;> [skip; split at h] <;> simp only [Option.some.injEq] at h <;> rw [← h]
    · have hid : handle_selected_with_search_state (Key.char '/') (s.menuAt f) = s.menuAt f := by
        simp [handle_selected_with_search_state]
      rw [hid, setMenuAt_self]
      exact ⟨rfl, rfl, rfl, rfl⟩
    · simp [handle_selected_without_search_state]
      rcases f with ⟨v, hv⟩
      interval_cases v <;> simp [KState.setMenuAt, KState.menuAt]
    · exact ⟨rfl, rfl, rfl, rfl⟩

/-- A successful menu3 refresh resets the cursor and installs the placeholder
exactly when a governing filtered view is empty. -/
lemma update_menu3_props (oracle : String → String → List String)
    (a b m3 m3n : Menu) (h : update_menu3_object oracle a b m3 = some m3n) :
    m3n.selected_row = 0 ∧
    ((filter_rows a = [] ∨ filter_rows b = []) →
      m3n.rows = ["No resources matched criteria."]) := by
  simp only [update_menu3_object] at h
  split at h
  · simp only [Option.some.injEq] at h
    rw [← h]
    exact ⟨rfl, fun _ => rfl⟩
  · rename_i hno
    split at h
    · simp only [Option.some.injEq] at h
      rw [← h]
      exact ⟨rfl, fun hc => absurd hc hno⟩
    · exact absurd h (by simp)

/-- The menu3 refresh never touches the filter of the refreshed menu. -/
lemma update_menu3_filter (oracle : String → String → List String)
    (a b m3 m3n : Menu) (h : update_menu3_object oracle a b m3 = some m3n) :
    m3n.filter = m3.filter := by
  simp only [update_menu3_object] at h
  split at h
  · simp only [Option.some.injEq] at h; rw [← h]
  · split at h
    · simp only [Option.some.injEq] at h; rw [← h]
    · exact absurd h (by simp)

/-- Decomposition of catch_input: the dispatch chain ran, and then either the
result was returned as is (interrupt, menu3 focused, or an excluded key), or
the menu3 refresh was applied on top. -/
lemma catch_input_cases (oracle : String → String → List String) (k : Key)
    (f : Fin 3) (s s2 : KState) (b : Bool)
    (h : catch_input oracle k f s = some (s2, b)) :
    ∃ st, after_key k f s = some st ∧
      ((s2 = st.1 ∧ st.2 = true) ∨
       (s2 = st.1 ∧ st.2 = false ∧ ¬(f.val ≠ 2 ∧ key_in_excluded k = false)) ∨
       (∃ m3n, st.2 = false ∧ f.val ≠ 2 ∧ key_in_excluded k = false ∧
          update_menu3_object oracle st.1.m1 st.1.m2 st.1.m3 = some m3n ∧
          s2 = { st.1 with m3 := m3n })) := by
  simp only [catch_input] at h
  split at h
  · simp at h
  · rename_i step heq
    refine ⟨step, heq, ?_⟩
    split at h
    · rename_i h2
      simp only [Option.some.injEq, Prod.mk.injEq] at h
      exact Or.inl ⟨h.1.symm, h2⟩
    · rename_i h2
      split at h
      · rename_i hcond
        split at h
        · rename_i m3n hup
          simp only [Option.some.injEq, Prod.mk.injEq] at h
          exact Or.inr (Or.inr ⟨m3n, by simpa using h2, hcond.1, hcond.2, hup, h.1.symm⟩)
        · simp at h
      · rename_i hcond
        simp only [Option.some.injEq, Prod.mk.injEq] at h
        exact Or.inr (Or.inl ⟨h.1.symm, by simpa using h2, hcond⟩)

/-- The search-mode handler can only clear the filter, drop its last
character, or append a guard-approved character: the filter alphabet is
preserved. -/
lemma handle_search_filter_ok (k : Key) (m : Menu) (hm : filter_ok m.filter) :
    filter_ok (handle_selected_with_search_state k m).filter := by
  cases k with
  | esc => intro c hc; simp [handle_selected_with_search_state] at hc
  | backspace =>
      intro c hc
      simp only [handle_selected_with_search_state, py_drop_last] at hc
      exact hm c (List.dropLast_subset _ hc)
  | char c =>
      simp only [handle_selected_with_search_state]
      split
      · rename_i hg
        intro x hx
        simp only [String.push] at hx
        rcases List.mem_append.mp hx with hx | hx
        · exact hm x hx
        · have hg2 : c.isAlpha = true ∨ c = '-' := by simpa using hg
          rcases hg2 with hg2 | hg2
          · simp only [List.mem_singleton] at hx
            exact Or.inl (hx ▸ hg2)
          · simp only [List.mem_singleton] at hx
            exact Or.inr (hx ▸ hg2)
      · exact hm
  | _ => exact hm

/-- A character key that the filter guard rejects leaves every filter
unchanged in the dispatch chain. -/
lemma after_key_char_keeps (c : Char) (f : Fin 3) (s : KState)
    (st : KState × Bool) (h : after_key (Key.char c) f s = some st)
    (ha : c.isAlpha = false) (hd : c ≠ '-') :
    st.1.m1.filter = s.m1.filter ∧ st.1.m2.filter = s.m2.filter ∧
    st.1.m3.filter = s.m3.filter := by
  simp [after_key] at h
  split at h <;> [skip; split at h] <;> simp only [Option.some.injEq] at h <;> rw [← h]
  · have hid : handle_selected_with_search_state (Key.char c) (s.menuAt f) = s.menuAt f := by
      simp [handle_selected_with_search_state, ha, hd]
    rw [hid, setMenuAt_self]
    exact ⟨rfl, rfl, rfl⟩
  · simp only [handle_selected_without_search_state]
    rcases f with ⟨v, hv⟩
    interval_cases v <;>
      (split <;> [skip; split] <;> simp [KState.setMenuAt, KState.menuAt])
  · exact ⟨rfl, rfl, rfl⟩

/-- The focused menu's filter satisfies the menu-wise invariant. -/
lemma menuAt_filter_ok (s : KState) (f : Fin 3) (hs : state_filters_ok s) :
    filter_ok (s.menuAt f).filter := by
  rcases f with ⟨v, hv⟩
  interval_cases v <;> simp only [KState.menuAt] <;> simp
  · exact hs.1
  · exact hs.2.1
  · exact hs.2.2

/-- Storing back a menu with a well-formed filter preserves the invariant. -/
lemma setMenuAt_filter_ok (s : KState) (f : Fin 3) (m : Menu)
    (hs : state_filters_ok s) (hm : filter_ok m.filter) :
    state_filters_ok (s.setMenuAt f m) := by
  rcases f with ⟨v, hv⟩
  interval_cases v <;> simp only [KState.setMenuAt] <;> simp <;>
    exact ⟨by first | exact hm | exact hs.1,
           by first | exact hm | exact hs.2.1,
           by first | exact hm | exact hs.2.2⟩

/-- The dispatch chain preserves the filter-alphabet invariant of all three
menus. -/
lemma after_key_filter_ok (k : Key) (f : Fin 3) (s : KState)
    (st : KState × Bool) (h : after_key k f s = some st)
    (hs : state_filters_ok s) : state_filters_ok st.1 := by
  cases k <;> simp [after_key] at h
  case tab | right | btab | left =>
    rw [← h]
    obtain ⟨_, k2, _, _, k5, _, _, k8, _⟩ := navigate_horizontally_keeps _ f s
    exact ⟨k2 ▸ hs.1, k5 ▸ hs.2.1, k8 ▸ hs.2.2⟩
  case down | up =>
    rw [← h]
    obtain ⟨_, k2, _, k4, _, k6, _⟩ := navigate_vertically_keeps _ f s
    exact ⟨k2 ▸ hs.1, k4 ▸ hs.2.1, k6 ▸ hs.2.2⟩
  case fkey fk =>
    rcases hr : run_command fk s with _ | w <;> rw [hr] at h <;> simp at h
    rw [← h]
    exact hs
  case esc | backspace =>
    split at h <;> [skip; split at h] <;> simp only [Option.some.injEq] at h <;> rw [← h]
    · exact setMenuAt_filter_ok s f _ hs
        (handle_search_filter_ok _ _ (menuAt_filter_ok s f hs))
    · exact setMenuAt_filter_ok s f _ hs (menuAt_filter_ok s f hs)
    · exact hs
  case char c =>
    split at h <;> [skip; split at h] <;> simp only [Option.some.injEq] at h <;> rw [← h]
    · exact setMenuAt_filter_ok s f _ hs
        (handle_search_filter_ok _ _ (menuAt_filter_ok s f hs))
    · refine setMenuAt_filter_ok s f _ hs ?_
      have hfeq : (handle_selected_without_search_state (Key.char c) (s.menuAt f)).1.filter
          = (s.menuAt f).filter := by
        simp only [handle_selected_without_search_state]
        split
        · rfl
        · split <;> rfl
      rw [hfeq]
      exact menuAt_filter_ok s f hs
    · exact hs

/-- Iterating the circular shift accumulates the deltas modulo the length. -/
lemma circular_shift_iterate (n : Nat) (d : Int) (i : Int)
    (h0 : 0 ≤ i) (hi : i < (n : Int)) :
    ∀ k : Nat, (circular_shift n d)^[k] i = (i + (k : Int) * d) % (n : Int) := by
  intro k
  induction k with
  | zero => simp [Int.emod_eq_of_lt h0 hi]
  | succ k ih =>
      rw [Function.iterate_succ_apply', ih]
      show ((i + (k : Int) * d) % (n : Int) + d) % (n : Int) = _
      rw [Int.add_emod ((i + (k : Int) * d) % (n : Int)) d,
        Int.emod_emod_of_dvd _ dvd_rfl, ← Int.add_emod]
      congr 1
      push_cast
      ring

/-- C8: for a pane whose filtered view has zero rows or exactly one row,
vertical navigation is a no-op: the whole application state (every cursor,
filter, row list and menu state) is unchanged, and the redraw of kls.py
line 150 is not reached (the source returns on line 146 before any drawing).
-/
theorem C8_vertical_navigation_noop (d : VDir) (f : Fin 3) (s : KState)
    (h : (filter_rows (s.menuAt f)).length ≤ 1) :
    navigate_vertically d f s = s := by
  have h2 : filter_rows (s.menuAt f) = [] ∨ (filter_rows (s.menuAt f)).length = 1 := by
    rcases Nat.lt_or_ge (filter_rows (s.menuAt f)).length 1 with h1 | h1
    · exact Or.inl (List.length_eq_zero.mp (by omega))
    · exact Or.inr (by omega)
  simp only [navigate_vertically]
  split
  · rfl
  · rename_i hcon
    exact absurd h2 hcon

/-- Witness for C8 at a pane with exactly one filtered row. -/
theorem C8_witness :
    navigate_vertically .down 0
      { m1 := { state := 1, rows := ["only"], selected_row := 0, filter := "", rows_number := 5 },
        m2 := { state := 3, rows := ["pods"], selected_row := 0, filter := "", rows_number := 5 },
        m3 := { state := 3, rows := ["p1"], selected_row := 0, filter := "", rows_number := 5 } }
      = { m1 := { state := 1, rows := ["only"], selected_row := 0, filter := "", rows_number := 5 },
          m2 := { state := 3, rows := ["pods"], selected_row := 0, filter := "", rows_number := 5 },
          m3 := { state := 3, rows := ["p1"], selected_row := 0, filter := "", rows_number := 5 } } :=
  C8_vertical_navigation_noop .down 0 _ (by decide)

/-- C9: the cursor update `index ↦ (index + d) mod n` of the circular list
(spec `CircularList.shift`; kls.py line 148 for `d = ±1`) never yields an
index outside `[0, n)`, and applying it `n / gcd (n, d)` times returns the
cursor to its original position. -/
theorem C9_circular_shift_period (n : Nat) (d i : Int) (hn : 0 < n)
    (h0 : 0 ≤ i) (hi : i < (n : Int)) :
    (0 ≤ circular_shift n d i ∧ circular_shift n d i < (n : Int)) ∧
    (circular_shift n d)^[n / Int.gcd (n : Int) d] i = i := by
  have hnz : (n : Int) ≠ 0 := by exact_mod_cast hn.ne'
  constructor
  · exact ⟨Int.emod_nonneg _ hnz, Int.emod_lt_of_pos _ (by exact_mod_cast hn)⟩
  · rw [circular_shift_iterate n d i h0 hi]
    set g := Int.gcd (n : Int) d with hg
    have hgd : ((g : Nat) : Int) ∣ d := hg ▸ Int.gcd_dvd_right
    obtain ⟨e, he⟩ := hgd
    have hgn : g ∣ n := by
      have h := Int.gcd_dvd_left (a := (n : Int)) (b := d)
      rw [← hg] at h
      exact_mod_cast h
    have hmul : ((n / g : Nat) : Int) * d = (n : Int) * e := by
      rw [he]
      have : ((n / g : Nat) : Int) * (((g : Nat) : Int) * e)
          = (((n / g) * g : Nat) : Int) * e := by push_cast; ring
      rw [this, Nat.div_mul_cancel hgn]
    rw [hmul, Int.add_mul_emod_self_left]
    exact Int.emod_eq_of_lt h0 hi

/-- Witness for C9 with n = 3, d = 2, i = 1: two positions per step, a full
cycle after 3 / gcd (3, 2) = 3 steps. -/
theorem C9_witness :
    (0 ≤ circular_shift 3 2 1 ∧ circular_shift 3 2 1 < ((3 : Nat) : Int)) ∧
    (circular_shift 3 2)^[3 / Int.gcd ((3 : Nat) : Int) 2] 1 = 1 :=
  C9_circular_shift_period 3 2 1 (by decide) (by decide) (by decide)

/-- C4: for a pane with a non-empty filtered view and a cursor index inside
it, the first visible row index of draw_rows equals
`max 0 (index - height + 1)` and the painted window has exactly
`min height filteredRowCount` rows (kls.py lines 74-76). -/
theorem C4_scroll_window (m : Menu) (h1 : filter_rows m ≠ [])
    (h2 : 0 ≤ m.selected_row)
    (h3 : m.selected_row < ((filter_rows m).length : Int)) :
    first_row_index m = max 0 (m.selected_row - (m.rows_number : Int) + 1) ∧
    (visible_rows m).length = min m.rows_number (filter_rows m).length := by
  constructor
  · simp only [first_row_index]
    split <;> omega
  · simp only [visible_rows, py_slice, first_row_index, List.length_take,
      List.length_drop]
    split <;> rename_i hc <;> omega

/-- Witness for C4: three filtered rows, viewport height 2, cursor at 2. -/
theorem C4_witness :
    first_row_index { state := 1, rows := ["a", "b", "c"], selected_row := 2, filter := "", rows_number := 2 } = 1 ∧
    (visible_rows { state := 1, rows := ["a", "b", "c"], selected_row := 2, filter := "", rows_number := 2 }).length = 2 := by
  have h := C4_scroll_window
    { state := 1, rows := ["a", "b", "c"], selected_row := 2, filter := "", rows_number := 2 }
    (by decide) (by decide) (by decide)
  exact ⟨h.1.trans (by decide), h.2.trans (by decide)⟩

/-- C1: dispatching any action key while the instance pane's selection is the
empty sentinel — zero filtered rows, or the single-row "No resources"
placeholder installed by update_menu3_object — is a silent no-op: run_command
returns on kls.py line 110 before any mode switch or process call, and it
never writes any menu field. -/
theorem C1_sentinel_dispatch_noop (fk : FKey) (s : KState)
    (h : filter_rows s.m3 = [] ∨
         ∃ r, s.m3.rows = [r] ∧ starts_with r "No resources" = true) :
    run_command fk s = some none := by
  rcases h with h | ⟨r, hr, hsw⟩
  · simp [run_command, h]
  · by_cases hc : str_in s.m3.filter r = true
    · have hf : filter_rows s.m3 = [r] := by
        simp [filter_rows, hr, hc]
      simp [run_command, hf, hsw]
    · have hf : filter_rows s.m3 = [] := by
        simp only [filter_rows, hr, List.filter_cons, List.filter_nil]
        simp [hc]
      simp [run_command, hf]

/-- Witness for C1: the placeholder row installed after an empty query. -/
theorem C1_witness :
    run_command .f1
      { m1 := { state := 1, rows := ["ns1"], selected_row := 0, filter := "", rows_number := 5 },
        m2 := { state := 3, rows := ["pods"], selected_row := 0, filter := "", rows_number := 5 },
        m3 := { state := 3, rows := ["No resources matched criteria."], selected_row := 0, filter := "", rows_number := 5 } } = some none :=
  C1_sentinel_dispatch_noop .f1 _
    (Or.inr ⟨"No resources matched criteria.", rfl, by decide⟩)

/-- C7: the log-streaming key F4 with a valid three-level selection whose
type value is not "pods" is a silent no-op: run_command returns on
kls.py line 124 before the display is suspended and before any process
call. -/
theorem C7_log_key_gated (s : KState) (t nsv resv : String)
    (h1 : menu_selection s.m1 = some nsv)
    (h2 : menu_selection s.m2 = some t)
    (ht : t ≠ "pods")
    (h3 : py_index s.m3.rows s.m3.selected_row = some resv) :
    run_command .f4 s = some none := by
  by_cases he : filter_rows s.m3 = []
  · simp [run_command, he]
  · by_cases hsw : starts_with ((filter_rows s.m3).headD "") "No resources" = true
    · simp only [List.headD_eq_head?] at hsw
      simp [run_command, he, hsw]
    · simp only [List.headD_eq_head?] at hsw
      simp only [menu_selection] at h1 h2
      simp [run_command, he, hsw, h1, h2, h3, ht]

/-- Witness for C7: F4 on a "services" selection does nothing. -/
theorem C7_witness :
    run_command .f4
      { m1 := { state := 1, rows := ["ns1"], selected_row := 0, filter := "", rows_number := 5 },
        m2 := { state := 3, rows := ["services"], selected_row := 0, filter := "", rows_number := 5 },
        m3 := { state := 3, rows := ["pod1"], selected_row := 0, filter := "", rows_number := 5 } }
      = some none :=
  C7_log_key_gated _ "services" "ns1" "pod1" (by decide) (by decide) (by decide) (by decide)

/-- C3 (code bug): with instance rows `["alpha", "beta"]`, instance filter
`"b"` and all cursors at 0, the selected instance row is `"beta"` (and
new_kls.py would resolve `"beta"`), yet kls.py line 115 reads
`menu3.rows[menu3.selected_row]` — the unfiltered list — and renders the F1
command with `"alpha"`. -/
theorem C3_unfiltered_resource_bug :
    run_command .f1
      { m1 := { state := 1, rows := ["ns1"], selected_row := 0, filter := "", rows_number := 5 },
        m2 := { state := 3, rows := ["pods"], selected_row := 0, filter := "", rows_number := 5 },
        m3 := { state := 3, rows := ["alpha", "beta"], selected_row := 0, filter := "b", rows_number := 5 } }
      = some (some "kubectl -n ns1 get pods alpha -o yaml | batcat -l yaml --paging always --style numbers") ∧
    menu_selection { state := 3, rows := ["alpha", "beta"], selected_row := 0, filter := "b", rows_number := 5 } = some "beta" ∧
    new_kls_resource { state := 3, rows := ["alpha", "beta"], selected_row := 0, filter := "b", rows_number := 5 } = some "beta" := by
  refine ⟨rfl, rfl, rfl⟩

/-- C2 counterexample: a backspace changes the filter (re-triggering the
re-filtering) but does not reset the cursor to 0 (kls.py lines 159-162 set no
`selected_row`). -/
theorem C2_counterexample :
    (handle_selected_with_search_state .backspace
      { state := 2, rows := ["ab", "ab"], selected_row := 1, filter := "ab", rows_number := 5 }).filter
      ≠ "ab" ∧
    (handle_selected_with_search_state .backspace
      { state := 2, rows := ["ab", "ab"], selected_row := 1, filter := "ab", rows_number := 5 }).selected_row
      ≠ 0 := by
  decide

/-- C2 (amended): a character append resets the cursor index to 0, while a
backspace shortens the filter by one character and leaves the cursor index
unchanged; in every state the filtered view is exactly the subsequence of the
pane's rows containing the filter text as a substring, in original row
order. -/
theorem C2_amended_filter_update (m : Menu) (c : Char)
    (hc : c.isAlpha = true ∨ c = '-') :
    ((handle_selected_with_search_state (.char c) m).filter = m.filter.push c ∧
     (handle_selected_with_search_state (.char c) m).selected_row = 0 ∧
     (handle_selected_with_search_state (.char c) m).rows = m.rows) ∧
    ((handle_selected_with_search_state .backspace m).filter = py_drop_last m.filter ∧
     (handle_selected_with_search_state .backspace m).selected_row = m.selected_row ∧
     (handle_selected_with_search_state .backspace m).rows = m.rows) ∧
    (∀ mm : Menu, (filter_rows mm).Sublist mm.rows ∧
      (∀ r, r ∈ filter_rows mm ↔ r ∈ mm.rows ∧ str_in mm.filter r = true)) := by
  refine ⟨?_, ?_, ?_⟩
  · have hg : (c.isAlpha || c = '-') = true := by
      rcases hc with hc | hc <;> simp [hc]
    simp [handle_selected_with_search_state, hg]
  · simp [handle_selected_with_search_state]
  · intro mm
    exact ⟨List.filter_sublist _, fun r => by simp [filter_rows]⟩

/-- Witness for the amended C2: appending a letter resets the cursor. -/
theorem C2_witness :
    (handle_selected_with_search_state (.char 'a')
      { state := 2, rows := ["ab"], selected_row := 1, filter := "", rows_number := 5 }).selected_row
      = 0 :=
  (C2_amended_filter_update
    { state := 2, rows := ["ab"], selected_row := 1, filter := "", rows_number := 5 }
    'a' (Or.inl (by decide))).1.2.1

/-- The state of each menu after a horizontal move: the target gets the
focused variant, the source the unfocused variant, the third is untouched. -/
lemma navigate_horizontally_state (d : HDir) (f : Fin 3) (s : KState) (j : Fin 3) :
    ((navigate_horizontally d f s).menuAt j).state =
      if j = next_menu_index f (h_increment d) then
        (if (s.menuAt j).filter = "" then SELECTED_WITHOUT_SEARCH else SELECTED_WITH_SEARCH)
      else if j = f then
        (if (s.menuAt f).filter = "" then NOT_SELECTED_WITHOUT_SEARCH else NOT_SELECTED_WITH_SEARCH)
      else (s.menuAt j).state := by
  fin_cases f <;> fin_cases j <;> cases d <;>
    simp [navigate_horizontally, next_menu_index, h_increment, KState.setMenuAt,
      KState.menuAt, Fin.ext_iff]

/-- The circularly adjacent menu is never the focused menu itself. -/
lemma next_menu_index_ne (d : HDir) (f : Fin 3) :
    next_menu_index f (h_increment d) ≠ f := by
  fin_cases f <;> cases d <;> decide

/-- C6: a horizontal move unfocuses the focused pane and focuses the
circularly adjacent pane in the move's direction (wraparound over the pane
order group, type, instance); both panes end in their WITH_SEARCH
("filtering") variant exactly when their filter is non-empty, and exactly one
pane is focused afterwards (kls.py lines 133-140). -/
theorem C6_horizontal_focus_move (d : HDir) (f : Fin 3) (s : KState)
    (hf : (s.menuAt f).state = SELECTED_WITHOUT_SEARCH ∨
          (s.menuAt f).state = SELECTED_WITH_SEARCH)
    (ho : ∀ j : Fin 3, j ≠ f →
      (s.menuAt j).state ≠ SELECTED_WITHOUT_SEARCH ∧
      (s.menuAt j).state ≠ SELECTED_WITH_SEARCH) :
    (((navigate_horizontally d f s).menuAt (next_menu_index f (h_increment d))).state =
      if (s.menuAt (next_menu_index f (h_increment d))).filter = ""
      then SELECTED_WITHOUT_SEARCH else SELECTED_WITH_SEARCH) ∧
    (((navigate_horizontally d f s).menuAt (next_menu_index f (h_increment d))).state =
        SELECTED_WITHOUT_SEARCH ∨
     ((navigate_horizontally d f s).menuAt (next_menu_index f (h_increment d))).state =
        SELECTED_WITH_SEARCH) ∧
    (((navigate_horizontally d f s).menuAt f).state =
      if (s.menuAt f).filter = ""
      then NOT_SELECTED_WITHOUT_SEARCH else NOT_SELECTED_WITH_SEARCH) ∧
    (∀ j : Fin 3, j ≠ next_menu_index f (h_increment d) →
      ((navigate_horizontally d f s).menuAt j).state ≠ SELECTED_WITHOUT_SEARCH ∧
      ((navigate_horizontally d f s).menuAt j).state ≠ SELECTED_WITH_SEARCH) := by
  have hne := next_menu_index_ne d f
  refine ⟨?_, ?_, ?_, ?_⟩
  · rw [navigate_horizontally_state d f s, if_pos rfl]
  · rw [navigate_horizontally_state d f s, if_pos rfl]
    split
    · exact Or.inl rfl
    · exact Or.inr rfl
  · rw [navigate_horizontally_state d f s, if_neg (fun h => hne h.symm), if_pos rfl]
  · intro j hj
    rw [navigate_horizontally_state d f s, if_neg hj]
    by_cases hjf : j = f
    · rw [if_pos hjf]
      split <;> constructor <;> decide
    · rw [if_neg hjf]
      exact ho j hjf

/-- Witness for C6: moving right from the group pane focuses the type pane
(in its filtering variant, since its filter is non-empty). -/
theorem C6_witness :
    (((navigate_horizontally .right 0
        { m1 := { state := 1, rows := ["a"], selected_row := 0, filter := "", rows_number := 5 },
          m2 := { state := 3, rows := ["b"], selected_row := 0, filter := "x", rows_number := 5 },
          m3 := { state := 3, rows := ["c"], selected_row := 0, filter := "", rows_number := 5 } }).menuAt
        (next_menu_index 0 (h_increment .right))).state = SELECTED_WITHOUT_SEARCH ∨
     ((navigate_horizontally .right 0
        { m1 := { state := 1, rows := ["a"], selected_row := 0, filter := "", rows_number := 5 },
          m2 := { state := 3, rows := ["b"], selected_row := 0, filter := "x", rows_number := 5 },
          m3 := { state := 3, rows := ["c"], selected_row := 0, filter := "", rows_number := 5 } }).menuAt
        (next_menu_index 0 (h_increment .right))).state = SELECTED_WITH_SEARCH) :=
  (C6_horizontal_focus_move .right 0
    { m1 := { state := 1, rows := ["a"], selected_row := 0, filter := "", rows_number := 5 },
      m2 := { state := 3, rows := ["b"], selected_row := 0, filter := "x", rows_number := 5 },
      m3 := { state := 3, rows := ["c"], selected_row := 0, filter := "", rows_number := 5 } }
    (Or.inl (by decide)) (by decide)).2.1

/-- C5: whenever the processing of one key while menu1 or menu2 is focused
mutated that menu's filter or cursor, catch_input has re-derived menu3 before
returning: menu3 equals the update_menu3_object result computed from the new
menu1/menu2 state (the caching-free re-query of kls.py lines 189-191), its
cursor is reset to 0, and it is the placeholder row when either governing
filtered view is empty. -/
theorem C5_refresh_on_mutation (oracle : String → String → List String)
    (k : Key) (f : Fin 3) (s s2 : KState) (b : Bool)
    (hrun : catch_input oracle k f s = some (s2, b))
    (hmut : s2.m1.filter ≠ s.m1.filter ∨ s2.m1.selected_row ≠ s.m1.selected_row ∨
            s2.m2.filter ≠ s.m2.filter ∨ s2.m2.selected_row ≠ s.m2.selected_row) :
    update_menu3_object oracle s2.m1 s2.m2 s.m3 = some s2.m3 ∧
    s2.m3.selected_row = 0 ∧
    ((filter_rows s2.m1 = [] ∨ filter_rows s2.m2 = []) →
      s2.m3.rows = ["No resources matched criteria."]) := by
  obtain ⟨st, hak, hcase⟩ := catch_input_cases oracle k f s s2 b hrun
  rcases hcase with ⟨hs2, hint⟩ | ⟨hs2, _, hcond⟩ | ⟨m3n, _, hf2, hexc, hup, hs2⟩
  · have hid := after_key_interrupt k f s st hak hint
    rw [hs2, hid] at hmut
    simp at hmut
  · rcases not_and_or.mp hcond with hA | hB
    · have hf2 : f.val = 2 := not_not.mp hA
      have hk := after_key_f2_keeps k f s st hf2 hak
      rw [hs2] at hmut
      rcases hmut with h | h | h | h
      · exact absurd hk.1 h
      · exact absurd hk.2.1 h
      · exact absurd hk.2.2.1 h
      · exact absurd hk.2.2.2 h
    · have hexc : key_in_excluded k = true := by simpa using hB
      have hk := after_key_excluded_keeps k f s st hexc hak
      rw [hs2] at hmut
      rcases hmut with h | h | h | h
      · exact absurd hk.1 h
      · exact absurd hk.2.1 h
      · exact absurd hk.2.2.1 h
      · exact absurd hk.2.2.2 h
  · have hm3 := after_key_m3 k f s st hexc hf2 hak
    have hp := update_menu3_props oracle st.1.m1 st.1.m2 st.1.m3 m3n hup
    have e1 : s2.m1 = st.1.m1 := by rw [hs2]
    have e2 : s2.m2 = st.1.m2 := by rw [hs2]
    have e3 : s2.m3 = m3n := by rw [hs2]
    rw [e1, e2, e3, ← hm3]
    exact ⟨hup, hp.1, hp.2⟩

/-- Witness for C5: a KEY_DOWN on the group pane moves its cursor and menu3
is re-queried through the oracle with the cursor reset. -/
theorem C5_witness :
    update_menu3_object (fun _ _ => ["pod1"])
      { state := 1, rows := ["aa", "ab"], selected_row := 1, filter := "", rows_number := 5 }
      { state := 3, rows := ["pods"], selected_row := 0, filter := "", rows_number := 5 }
      { state := 3, rows := ["old"], selected_row := 0, filter := "", rows_number := 5 }
      = some { state := 3, rows := ["pod1"], selected_row := 0, filter := "", rows_number := 5 } :=
  (C5_refresh_on_mutation (fun _ _ => ["pod1"]) .down 0
    { m1 := { state := 1, rows := ["aa", "ab"], selected_row := 0, filter := "", rows_number := 5 },
      m2 := { state := 3, rows := ["pods"], selected_row := 0, filter := "", rows_number := 5 },
      m3 := { state := 3, rows := ["old"], selected_row := 0, filter := "", rows_number := 5 } }
    { m1 := { state := 1, rows := ["aa", "ab"], selected_row := 1, filter := "", rows_number := 5 },
      m2 := { state := 3, rows := ["pods"], selected_row := 0, filter := "", rows_number := 5 },
      m3 := { state := 3, rows := ["pod1"], selected_row := 0, filter := "", rows_number := 5 } }
    false (by decide) (by decide)).1

/-- C10: in filter-entry mode only alphabetic characters and `-` are ever
appended to a filter (kls.py line 163); a character key outside that alphabet
leaves every filter unchanged, and one key-dispatch step preserves the
invariant that no filter contains a character outside letters and `-`. -/
theorem C10_filter_alphabet (oracle : String → String → List String)
    (k : Key) (f : Fin 3) (s s2 : KState) (b : Bool)
    (hrun : catch_input oracle k f s = some (s2, b))
    (hok : state_filters_ok s) :
    state_filters_ok s2 ∧
    (∀ c, k = Key.char c → c.isAlpha = false → c ≠ '-' →
      s2.m1.filter = s.m1.filter ∧ s2.m2.filter = s.m2.filter ∧
      s2.m3.filter = s.m3.filter) := by
  obtain ⟨st, hak, hcase⟩ := catch_input_cases oracle k f s s2 b hrun
  have hstok : state_filters_ok st.1 := after_key_filter_ok k f s st hak hok
  rcases hcase with ⟨hs2, _⟩ | ⟨hs2, _, _⟩ | ⟨m3n, _, hf2, hexc, hup, hs2⟩
  · refine ⟨hs2 ▸ hstok, ?_⟩
    intro c hkc ha hd
    rw [hs2]
    exact after_key_char_keeps c f s st (hkc ▸ hak) ha hd
  · refine ⟨hs2 ▸ hstok, ?_⟩
    intro c hkc ha hd
    rw [hs2]
    exact after_key_char_keeps c f s st (hkc ▸ hak) ha hd
  · have hfil := update_menu3_filter oracle st.1.m1 st.1.m2 st.1.m3 m3n hup
    constructor
    · rw [hs2]
      exact ⟨hstok.1, hstok.2.1, by simpa [hfil] using hstok.2.2⟩
    · intro c hkc ha hd
      have hkeep := after_key_char_keeps c f s st (hkc ▸ hak) ha hd
      rw [hs2]
      exact ⟨hkeep.1, hkeep.2.1, hfil.trans hkeep.2.2⟩

/-- Witness for C10: appending a letter in search mode keeps every filter
inside the letters-and-hyphen alphabet. -/
theorem C10_witness :
    state_filters_ok
      { m1 := { state := 2, rows := ["abc"], selected_row := 0, filter := "a", rows_number := 5 },
        m2 := { state := 3, rows := ["pods"], selected_row := 0, filter := "", rows_number := 5 },
        m3 := { state := 3, rows := ["pod1"], selected_row := 0, filter := "", rows_number := 5 } } :=
  (C10_filter_alphabet (fun _ _ => ["pod1"]) (.char 'a') 0
    { m1 := { state := 2, rows := ["abc"], selected_row := 0, filter := "", rows_number := 5 },
      m2 := { state := 3, rows := ["pods"], selected_row := 0, filter := "", rows_number := 5 },
      m3 := { state := 3, rows := ["old"], selected_row := 0, filter := "", rows_number := 5 } }
    { m1 := { state := 2, rows := ["abc"], selected_row := 0, filter := "a", rows_number := 5 },
      m2 := { state := 3, rows := ["pods"], selected_row := 0, filter := "", rows_number := 5 },
      m3 := { state := 3, rows := ["pod1"], selected_row := 0, filter := "", rows_number := 5 } }
    false (by decide) (by decide)).1
